import Mathlib

/-!
Verification development for the LiveboxTools repository
(`src/livebox_tools/livebox.py` and its duplicated sibling
`src/livebox/livebox.py`).

The repository is a Python client for a home router's HTTP/JSON
management API.  The shallow embedding below translates the class
`Livebox` of each file into pure Lean functions:

* the session object (`self.__cookies`, `self.__contextID`,
  `self.__is_connected`, and the derived `self.__cookies_code`) becomes
  the structure `Session`; the lazily created connection handle
  (`self.__connection`) carries no data relevant to any property and is
  represented by the transport oracle below;
* the network is modelled by an outcome argument: the result the pair
  `HTTPConnection.request` / `getresponse` would produce.  `RawOutcome`
  is the complete model: a response, one of the `http.client` exception
  kinds the code catches, or an OSError-family exception (connection
  refused, DNS failure, timeout) that no except clause matches and that
  therefore escapes `__query`.  `TransportOutcome` is its handled part,
  under which the session-level properties are stated;
* side effects (requests sent over the wire, lines printed) are returned
  explicitly in an `Effects` record;
* Python exceptions that the code does NOT catch (`json.loads` decode
  errors, `KeyError`, the `TypeError` of concatenating a non-string
  `contextID`, the `AttributeError` of `None.split`) are modelled with
  `Except PyErr`;
* `json.loads` is modelled by an executable recursive-descent JSON
  reader covering objects, arrays, strings with the common escapes,
  integers, booleans and null (floats and `\u` escapes are not used by
  any input considered here);
* percent-encoding performed by `urllib.parse.urlencode` is not
  modelled: credentials are combined by plain concatenation, which
  coincides with `urlencode` on the alphanumeric passwords used in the
  concrete witnesses.
-/

/-- JSON values as produced by `json.loads`. -/
inductive Json where
  | null
  | bool (b : Bool)
  | num (n : Int)
  | str (s : String)
  | arr (elems : List Json)
  | obj (fields : List (String × Json))
deriving Repr

/-- OSError-family exceptions the transport can raise: none of them is
an `http.client.HTTPException` subclass, so none of `__query`'s except
clauses matches them. -/
inductive OSErrorKind where
  | connectionRefused
  | gaierror
  | timeout
deriving DecidableEq, Repr

/-- Python exceptions that may escape the layers the code does not guard. -/
inductive PyErr where
  | jsonDecodeError
  | keyError (k : String)
  | typeError
  | attributeError
  | osError (e : OSErrorKind)
deriving DecidableEq, Repr

/-- Skip JSON whitespace. -/
def skipWs : List Char → List Char
  | c :: cs => if c = ' ' ∨ c = '\t' ∨ c = '\n' ∨ c = '\r' then skipWs cs else c :: cs
  | [] => []

/-- Decode one JSON string escape character (the common escapes;
`\u`, `\b` and `\f` do not occur in the inputs considered here). -/
def escChar (c : Char) : Option Char :=
  if c = 'n' then some '\n'
  else if c = 't' then some '\t'
  else if c = 'r' then some '\r'
  else if c = '"' ∨ c = '\\' ∨ c = '/' then some c
  else none

/-- Read the characters of a JSON string after its opening quote,
returning the content and the rest of the input. -/
def parseStrChars : List Char → Option (List Char × List Char)
  | [] => none
  | c :: cs =>
    if c = '"' then some ([], cs)
    else if c = '\\' then
      match cs with
      | [] => none
      | c2 :: cs2 =>
        match escChar c2 with
        | some ec =>
          match parseStrChars cs2 with
          | some (s, r) => some (ec :: s, r)
          | none => none
        | none => none
    else
      match parseStrChars cs with
      | some (s, r) => some (c :: s, r)
      | none => none

/-- Read a nonempty run of decimal digits as a natural number. -/
def parseNat (cs : List Char) : Option (Nat × List Char) :=
  match cs.span (fun c => c.isDigit) with
  | ([], _) => none
  | (ds, rest) => some (ds.foldl (fun acc c => acc * 10 + (c.toNat - 48)) 0, rest)

mutual

/-- Read one JSON value (fuel bounds the nesting recursion). -/
def parseVal : Nat → List Char → Option (Json × List Char)
  | 0, _ => none
  | f+1, input =>
    match skipWs input with
    | [] => none
    | c :: rest =>
      if c = '"' then
        match parseStrChars rest with
        | some (s, r) => some (Json.str s.asString, r)
        | none => none
      else if c = '\x7b' then
        match skipWs rest with
        | '\x7d' :: r2 => some (Json.obj [], r2)
        | r2 =>
          match parseMembers f r2 with
          | some (fs, r3) => some (Json.obj fs, r3)
          | none => none
      else if c = '[' then
        match skipWs rest with
        | ']' :: r2 => some (Json.arr [], r2)
        | r2 =>
          match parseElems f r2 with
          | some (es, r3) => some (Json.arr es, r3)
          | none => none
      else if c = 't' then
        match rest with
        | 'r' :: 'u' :: 'e' :: r2 => some (Json.bool true, r2)
        | _ => none
      else if c = 'f' then
        match rest with
        | 'a' :: 'l' :: 's' :: 'e' :: r2 => some (Json.bool false, r2)
        | _ => none
      else if c = 'n' then
        match rest with
        | 'u' :: 'l' :: 'l' :: r2 => some (Json.null, r2)
        | _ => none
      else if c = '-' then
        match parseNat rest with
        | some (n, r2) => some (Json.num (-(n : Int)), r2)
        | none => none
      else if c.isDigit then
        match parseNat (c :: rest) with
        | some (n, r2) => some (Json.num (n : Int), r2)
        | none => none
      else none

/-- Read the members of a JSON object after its opening brace. -/
def parseMembers : Nat → List Char → Option (List (String × Json) × List Char)
  | 0, _ => none
  | f+1, input =>
    match skipWs input with
    | '"' :: rest =>
      match parseStrChars rest with
      | some (k, r1) =>
        match skipWs r1 with
        | ':' :: r2 =>
          match parseVal f r2 with
          | some (v, r3) =>
            match skipWs r3 with
            | ',' :: r4 =>
              match parseMembers f r4 with
              | some (fs, r5) => some ((k.asString, v) :: fs, r5)
              | none => none
            | '\x7d' :: r4 => some ([(k.asString, v)], r4)
            | _ => none
          | none => none
        | _ => none
      | none => none
    | _ => none

/-- Read the elements of a JSON array after its opening bracket. -/
def parseElems : Nat → List Char → Option (List Json × List Char)
  | 0, _ => none
  | f+1, input =>
    match parseVal f input with
    | some (v, r1) =>
      match skipWs r1 with
      | ',' :: r2 =>
        match parseElems f r2 with
        | some (es, r3) => some (v :: es, r3)
        | none => none
      | ']' :: r2 => some ([v], r2)
      | _ => none
    | none => none

end

/-- Model of `json.loads`: reads a complete JSON document, raising
`json.JSONDecodeError` (modelled as `PyErr.jsonDecodeError`) otherwise. -/
def json_loads (s : String) : Except PyErr Json :=
  match parseVal (s.length + 1) s.toList with
  | some (j, rest) => if skipWs rest = [] then Except.ok j else Except.error PyErr.jsonDecodeError
  | none => Except.error PyErr.jsonDecodeError

/-- Last-match association lookup: `json.loads` keeps the last duplicate
key of an object, exactly as a Python `dict` built left to right. -/
def lookupLast (fields : List (String × Json)) (k : String) : Option Json :=
  fields.foldl (fun acc kv => if kv.1 = k then some kv.2 else acc) none

/-- Model of Python subscription `j[k]` on a decoded JSON value:
a `KeyError` when the key is missing, a `TypeError` when the value is
not a JSON object (Python dict). -/
def jsonIndex (j : Json) (k : String) : Except PyErr Json :=
  match j with
  | Json.obj fields =>
    match lookupLast fields k with
    | some v => Except.ok v
    | none => Except.error (PyErr.keyError k)
  | _ => Except.error PyErr.typeError

/-- Model of Python `s.split(sep)[0]`: the prefix of `s` before the first
occurrence of `sep` (all of `s` when `sep` does not occur). -/
def splitHeadChars (sep : Char) : List Char → List Char
  | [] => []
  | c :: cs => if c = sep then [] else c :: splitHeadChars sep cs

/-- String version of `splitHeadChars`. -/
def splitHead (sep : Char) (s : String) : String :=
  (splitHeadChars sep s.toList).asString

/-- Model of a Python `dict` update `d[k] = v` on an ordered
association list with unique keys: replace in place, else append. -/
def dictSet : List (String × String) → String → String → List (String × String)
  | [], k, v => [(k, v)]
  | kv :: rest, k, v => if kv.1 = k then (k, v) :: rest else kv :: dictSet rest k v

/-- Model of Python `k in d` for a `dict` as association list. -/
def dictHasKey (d : List (String × String)) (k : String) : Bool :=
  d.any (fun kv => kv.1 == k)

/-- The `http.client` exception kinds the code catches in `__query`,
in the order of its `except` clauses (the transport failure model). -/
inductive HTTPError where
  | notConnected
  | invalidURL
  | badStatusLine
  | improperConnectionState
  | httpException
deriving DecidableEq, Repr

/-- The parts of an `http.client.HTTPResponse` the code reads: the
status, the body bytes (decoded utf-8), the `Set-Cookie` header of
`response.info()` (absent = `None`) and the `Content-Type` header of
`dict(response.getheaders())` (absent = `KeyError` on subscription). -/
structure HTTPResponse where
  status : Nat
  body : String
  setCookie : Option String
  contentType : Option String
deriving DecidableEq, Repr

/-- The handled outcomes of one transport attempt
(`HTTPConnection.request` followed by `getresponse`): a response, or
one of the exception kinds enumerated in `__query`'s except clauses.
`RawOutcome` below completes this with the OSError-family failures
that no clause catches. -/
inductive TransportOutcome where
  | ok (resp : HTTPResponse)
  | err (e : HTTPError)
deriving DecidableEq, Repr

/-- The complete outcome of one transport attempt: either one of the
handled outcomes, or an OSError-family exception (connection refused,
DNS failure, timeout) that is not an `http.client.HTTPException` and
therefore matches none of `__query`'s except clauses. -/
inductive RawOutcome where
  | handled (oc : TransportOutcome)
  | osError (e : OSErrorKind)
deriving DecidableEq, Repr

/-- One HTTP request as handed to `HTTPConnection.request`: the method,
the url (query string), the body (`None` or encoded text) and the final
header dictionary. -/
structure Request where
  method : String
  url : String
  data : Option String
  headers : List (String × String)
deriving DecidableEq, Repr

/-- Observable side effects of a call: requests sent on the wire and
lines printed. -/
structure Effects where
  requests : List Request
  log : List String
deriving DecidableEq, Repr

/-- Python values returned by the query helpers: a plain string
sentinel (`""`, `"AUTH NEEDED"`, `"ERROR"`) or a decoded JSON value. -/
inductive PyVal where
  | str (s : String)
  | json (j : Json)
deriving Repr

/-- Dynamic Python argument values, used to model `isinstance` checks. -/
inductive PyArg where
  | bool (b : Bool)
  | int (n : Int)
  | str (s : String)
  | none
deriving DecidableEq, Repr

/-- The session state of the `Livebox` object: `self.__cookies`,
`self.__cookies_code` (absent before the first successful login,
modelled as `""`), `self.__contextID` and `self.__is_connected`.
The lazily-created `self.__connection` handle is replaced by the
transport oracle and carries no session data. -/
structure Session where
  cookies : String
  cookies_code : String
  contextID : String
  is_connected : Bool
deriving DecidableEq, Repr

/-- The session state right after `Livebox.__init__`. -/
def initSession : Session :=
  { cookies := "", cookies_code := "", contextID := "", is_connected := false }

/-- The message `__query` prints for each caught exception kind. -/
def errMsg : HTTPError → String
  | HTTPError.notConnected => "Error not connected"
  | HTTPError.invalidURL => "Error InvalidURL"
  | HTTPError.badStatusLine => "Error BadStatusLine"
  | HTTPError.improperConnectionState => "Error ImproperConnectionState"
  | HTTPError.httpException => "Error HTTP"

namespace LiveboxTools

/-- The class attribute `Livebox.PASSWORD`. -/
def PASSWORD : String := ""

/-- Password resolution at the top of `login`: an explicit argument wins,
else the class attribute when truthy (non-empty), else the result of the
interactive `getpass.getpass()` prompt (passed in as `gp`). -/
def resolvePassword (password : Option String) (gp : String) : String :=
  match password with
  | some p => p
  | none => if PASSWORD = "" then gp else PASSWORD

/-- The request `__query` hands to `HTTPConnection.request`: the caller
headers with `Connection` and `User-Agent` set and `Content-Type`
defaulted when absent (source lines 129-144 of
`src/livebox_tools/livebox.py`). -/
def queryRequest (q : String) (params : Option String)
    (headers : List (String × String)) (content_type m : String) : Request :=
  let hs := dictSet headers "Connection" "keep-alive"
  let hs := dictSet hs "User-Agent" "Python Livebox Tools"
  let hs := if dictHasKey hs "Content-Type" then hs else dictSet hs "Content-Type" content_type
  { method := m, url := q, data := params, headers := hs }

/-- `Livebox.__query`: sends the request and returns the response, or
catches the enumerated `http.client` exceptions, prints one message per
kind and returns `None`.  The function is total: no exception of the
modelled transport failure kinds escapes it. -/
def query (q : String) (params : Option String) (headers : List (String × String))
    (content_type m : String) (oc : TransportOutcome) :
    Effects × Option HTTPResponse :=
  let req := queryRequest q params headers content_type m
  match oc with
  | TransportOutcome.ok resp => (⟨[req], []⟩, some resp)
  | TransportOutcome.err e => (⟨[req], [errMsg e]⟩, none)

/-- `Livebox.__query` over the complete failure model `RawOutcome`: on
the handled outcomes it behaves exactly as `query` (the response, or a
printed message and `None` for the five caught kinds), while an
OSError-family exception raised by `request`/`getresponse` matches
none of the `except http.client.*` clauses and propagates to the
caller.  `query` is this function restricted to the handled paths, the
restriction under which the higher layers' properties are stated. -/
def queryFull (q : String) (params : Option String)
    (headers : List (String × String)) (content_type m : String) :
    RawOutcome → Effects × Except PyErr (Option HTTPResponse)
  | RawOutcome.handled oc =>
    let r := query q params headers content_type m oc
    (r.1, Except.ok r.2)
  | RawOutcome.osError e =>
    (⟨[queryRequest q params headers content_type m], []⟩,
      Except.error (PyErr.osError e))

/-- Body handling of `Livebox._queryUnauth` after `__query` returns:
empty sentinel on a missing response or empty body, otherwise the
decoded JSON (a decode failure raises, uncaught). -/
def unauthDecode : Option HTTPResponse → Except PyErr PyVal
  | Option.none => Except.ok (PyVal.str "")
  | Option.some resp =>
    if resp.body = "" then Except.ok (PyVal.str "")
    else
      match json_loads resp.body with
      | Except.ok j => Except.ok (PyVal.json j)
      | Except.error e => Except.error e

/-- `Livebox._queryUnauth`. -/
def queryUnauth (q : String) (params : Option String) (m : String)
    (oc : TransportOutcome) : Effects × Except PyErr PyVal :=
  let r := query q params [] "application/json" m oc
  (r.1, unauthDecode r.2)

/-- The header dictionary `_queryAuth` builds before delegating to
`__query` (source lines 189-194). -/
def authHeaders (st : Session) (headers : List (String × String)) :
    List (String × String) :=
  let hs := dictSet headers "Cookie" st.cookies
  let hs := dictSet hs "X-Context" st.contextID
  let hs := dictSet hs "X-Sah-Request-Type" "idle"
  let hs := dictSet hs "X-Requested-With" "XMLHttpRequest"
  let hs := dictSet hs "X-Prototype-Version" "1.7"
  dictSet hs "DNT" "1"

/-- Body handling of `Livebox._queryAuth` after `__query` returns
(source lines 197-204): empty sentinel on a missing response or an
empty body; with a non-empty body, subscripting the header dict can
raise `KeyError`, and the body is decoded only when the media type of
`Content-Type` is exactly `application/json`. -/
def authDecode : Option HTTPResponse → Except PyErr PyVal
  | Option.none => Except.ok (PyVal.str "")
  | Option.some resp =>
    if resp.body = "" then Except.ok (PyVal.str "")
    else
      match resp.contentType with
      | Option.none => Except.error (PyErr.keyError "Content-Type")
      | Option.some ct =>
        if splitHead ';' ct = "application/json" then
          match json_loads resp.body with
          | Except.ok j => Except.ok (PyVal.json j)
          | Except.error e => Except.error e
        else Except.ok (PyVal.str "")

/-- `Livebox._queryAuth`. -/
def queryAuth (st : Session) (q : String) (params : Option String)
    (headers : List (String × String)) (m : String) (oc : TransportOutcome) :
    Effects × Except PyErr PyVal :=
  let r := query q params (authHeaders st headers) "application/json" m oc
  (r.1, authDecode r.2)

/-- The session update performed by the body of `login` once `__query`
has answered (source lines 86-96): on a 200 response, decode the JSON
body, extract `data.contextID`, derive the cookie prefix from
`Set-Cookie` and rebuild the combined cookie string; any other response
(or a missing one) leaves the state untouched.  A missing `Set-Cookie`
raises (`None.split`), and a non-string `contextID` raises at the
string concatenation, after `Set-Cookie` was read—matching the
evaluation order of the source. -/
def loginUpdate (st : Session) : Option HTTPResponse → Except PyErr Session
  | Option.none => Except.ok st
  | Option.some resp =>
    if resp.status = 200 then
      match json_loads resp.body with
      | Except.error e => Except.error e
      | Except.ok datas =>
        match jsonIndex datas "data" with
        | Except.error e => Except.error e
        | Except.ok d =>
          match jsonIndex d "contextID" with
          | Except.error e => Except.error e
          | Except.ok ctxJ =>
            match resp.setCookie with
            | Option.none => Except.error PyErr.attributeError
            | Option.some sc =>
              match ctxJ with
              | Json.str ctx =>
                let code := splitHead '/' sc
                Except.ok { st with
                  contextID := ctx
                  cookies_code := code
                  cookies := splitHead ';' sc ++ "; " ++ code ++ "/login=admin; " ++
                    code ++ "/context=" ++ ctx
                  is_connected := true }
              | _ => Except.error PyErr.typeError
    else Except.ok st

/-- `Livebox.login`: resolve the password, POST the authenticate query
unauthenticated, and apply `loginUpdate` to the outcome. -/
def login (st : Session) (password : Option String) (gp : String)
    (oc : TransportOutcome) : Effects × Except PyErr Session :=
  let pw := resolvePassword password gp
  let r := query ("/authenticate?username=admin&password=" ++ pw)
    (some ("username=admin&password=" ++ pw)) [] "application/json" "POST" oc
  (r.1, loginUpdate st r.2)

/-- `Livebox.logout`: early return when not connected; otherwise one
authenticated POST to `/logout`, then `self.__is_connected = False`.
The cookie string and context identifier are not assigned. -/
def logout (st : Session) (oc : TransportOutcome) : Effects × Except PyErr Session :=
  if st.is_connected then
    let r := queryAuth st "/logout" (some "") [] "POST" oc
    match r.2 with
    | Except.ok _ => (r.1, Except.ok { st with is_connected := false })
    | Except.error e => (r.1, Except.error e)
  else (⟨[], []⟩, Except.ok st)

/-- `Livebox._sysbus`: prefix the endpoint with `/sysbus/` and dispatch
to the authenticated or unauthenticated query. -/
def sysbus (st : Session) (quest : String) (param : Option String) (auth : Bool)
    (m : String) (oc : TransportOutcome) : Effects × Except PyErr PyVal :=
  if auth then queryAuth st ("/sysbus/" ++ quest) param [] m oc
  else queryUnauth ("/sysbus/" ++ quest) param m oc

/-- The `require_auth` decorator: when the session is not connected the
wrapped function is not invoked and the fixed marker is returned with
no side effect (the `isinstance(args[0], Livebox)` test is always true
in this embedding since the receiver is a `Session`). -/
def require_auth (f : Session → Effects × Except PyErr PyVal) (st : Session) :
    Effects × Except PyErr PyVal :=
  if st.is_connected then f st
  else (⟨[], []⟩, Except.ok (PyVal.str "AUTH NEEDED"))

/-- The `action` decorator: print `ACTION`, then delegate. -/
def action (f : Session → Effects × Except PyErr PyVal) (st : Session) :
    Effects × Except PyErr PyVal :=
  let r := f st
  (⟨r.1.requests, "ACTION" :: r.1.log⟩, r.2)

/-- Python `str(enable).lower()` for a boolean. -/
def pyBool : Bool → String
  | true => "true"
  | false => "false"

/-- The JSON body `LB_Wifiset` builds for a boolean argument. -/
def wifiBody (b : Bool) : String :=
  "\x7b\"parameters\":\x7b\"Enable\":" ++ pyBool b ++ ",\"Status\":" ++ pyBool b ++ "\x7d\x7d"

/-- `Livebox.LB_Wifiset`, with its `@action` and `@require_auth`
decorators applied outside in: a non-boolean argument returns the
`"ERROR"` sentinel before any request is built. -/
def LB_Wifiset (st : Session) (enable : PyArg) (oc : TransportOutcome) :
    Effects × Except PyErr PyVal :=
  action (require_auth (fun s =>
    match enable with
    | PyArg.bool b => sysbus s "NMC/Wifi:set" (some (wifiBody b)) true "POST" oc
    | _ => (⟨[], []⟩, Except.ok (PyVal.str "ERROR")))) st

end LiveboxTools

namespace LiveboxLib

/-- The request builder of `__query` in the duplicated file
`src/livebox/livebox.py` (its lines 129-144, byte-identical to the
`livebox_tools` copy). -/
def queryRequest (q : String) (params : Option String)
    (headers : List (String × String)) (content_type m : String) : Request :=
  let hs := dictSet headers "Connection" "keep-alive"
  let hs := dictSet hs "User-Agent" "Python Livebox Tools"
  let hs := if dictHasKey hs "Content-Type" then hs else dictSet hs "Content-Type" content_type
  { method := m, url := q, data := params, headers := hs }

/-- `Livebox.__query` of `src/livebox/livebox.py`. -/
def query (q : String) (params : Option String) (headers : List (String × String))
    (content_type m : String) (oc : TransportOutcome) :
    Effects × Option HTTPResponse :=
  let req := queryRequest q params headers content_type m
  match oc with
  | TransportOutcome.ok resp => (⟨[req], []⟩, some resp)
  | TransportOutcome.err e => (⟨[req], [errMsg e]⟩, none)

/-- Body handling of `_queryUnauth` in `src/livebox/livebox.py`. -/
def unauthDecode : Option HTTPResponse → Except PyErr PyVal
  | Option.none => Except.ok (PyVal.str "")
  | Option.some resp =>
    if resp.body = "" then Except.ok (PyVal.str "")
    else
      match json_loads resp.body with
      | Except.ok j => Except.ok (PyVal.json j)
      | Except.error e => Except.error e

/-- `Livebox._queryUnauth` of `src/livebox/livebox.py`. -/
def queryUnauth (q : String) (params : Option String) (m : String)
    (oc : TransportOutcome) : Effects × Except PyErr PyVal :=
  let r := query q params [] "application/json" m oc
  (r.1, unauthDecode r.2)

/-- The header dictionary of `_queryAuth` in `src/livebox/livebox.py`. -/
def authHeaders (st : Session) (headers : List (String × String)) :
    List (String × String) :=
  let hs := dictSet headers "Cookie" st.cookies
  let hs := dictSet hs "X-Context" st.contextID
  let hs := dictSet hs "X-Sah-Request-Type" "idle"
  let hs := dictSet hs "X-Requested-With" "XMLHttpRequest"
  let hs := dictSet hs "X-Prototype-Version" "1.7"
  dictSet hs "DNT" "1"

/-- Body handling of `_queryAuth` in `src/livebox/livebox.py`. -/
def authDecode : Option HTTPResponse → Except PyErr PyVal
  | Option.none => Except.ok (PyVal.str "")
  | Option.some resp =>
    if resp.body = "" then Except.ok (PyVal.str "")
    else
      match resp.contentType with
      | Option.none => Except.error (PyErr.keyError "Content-Type")
      | Option.some ct =>
        if splitHead ';' ct = "application/json" then
          match json_loads resp.body with
          | Except.ok j => Except.ok (PyVal.json j)
          | Except.error e => Except.error e
        else Except.ok (PyVal.str "")

/-- `Livebox._queryAuth` of `src/livebox/livebox.py`. -/
def queryAuth (st : Session) (q : String) (params : Option String)
    (headers : List (String × String)) (m : String) (oc : TransportOutcome) :
    Effects × Except PyErr PyVal :=
  let r := query q params (authHeaders st headers) "application/json" m oc
  (r.1, authDecode r.2)

/-- `Livebox._sysbus` of `src/livebox/livebox.py` (its lines 206-222). -/
def sysbus (st : Session) (quest : String) (param : Option String) (auth : Bool)
    (m : String) (oc : TransportOutcome) : Effects × Except PyErr PyVal :=
  if auth then queryAuth st ("/sysbus/" ++ quest) param [] m oc
  else queryUnauth ("/sysbus/" ++ quest) param m oc

end LiveboxLib

/-- The session invariant stated by the specification: a connected
session has a non-empty cookie string and context identifier. -/
def SessionInv (st : Session) : Prop :=
  st.is_connected = true → st.cookies ≠ "" ∧ st.contextID ≠ ""

/-- Python `isinstance(enable, bool)` on a dynamic argument. -/
def isBoolArg : PyArg → Bool
  | PyArg.bool _ => true
  | _ => false

/-- A successful authenticate response carrying `data.contextID = "ctx123"`. -/
def ctxResponse : HTTPResponse :=
  { status := 200, body := "\x7b\"data\":\x7b\"contextID\":\"ctx123\"\x7d\x7d",
    setCookie := some "65190fee/sessid=abc; path=/",
    contentType := some "application/json" }

/-- A 200 authenticate response whose `data.contextID` is the empty string. -/
def emptyCtxResponse : HTTPResponse :=
  { status := 200, body := "\x7b\"data\":\x7b\"contextID\":\"\"\x7d\x7d",
    setCookie := some "code1/sess=abc; path=/",
    contentType := some "application/json" }

/-- A response whose content type is HTML, with a non-empty body. -/
def htmlResponse : HTTPResponse :=
  { status := 200, body := "<html>error</html>", setCookie := none,
    contentType := some "text/html; charset=utf8" }

/-- A connected session with recorded cookie string and context. -/
def connectedSession : Session :=
  { cookies := "sess=abc", cookies_code := "", contextID := "ctx1",
    is_connected := true }

theorem lookup_dictSet_self (d : List (String × String)) (k v : String) :
    List.lookup k (dictSet d k v) = some v := by
  induction d with
  | nil => simp [dictSet, List.lookup]
  | cons kv rest ih =>
    obtain ⟨k1, v1⟩ := kv
    by_cases h : k1 = k
    · simp [dictSet, h, List.lookup]
    · simp only [dictSet, h, if_false, List.lookup]
      have : (k == k1) = false := by
        simp [h]
        exact fun hk => h hk.symm
      simp [this, ih]

theorem lookup_dictSet_ne (d : List (String × String)) (k k' v : String)
    (h : k' ≠ k) : List.lookup k' (dictSet d k v) = List.lookup k' d := by
  induction d with
  | nil =>
    have hb : (k' == k) = false := by simp [h]
    simp [dictSet, List.lookup, hb]
  | cons kv rest ih =>
    obtain ⟨k1, v1⟩ := kv
    by_cases h1 : k1 = k
    · subst h1
      simp only [dictSet, if_pos rfl, List.lookup]
      have : (k' == k1) = false := by simp [h]
      simp [this, h]
    · simp only [dictSet, h1, if_false, List.lookup]
      by_cases h2 : k' = k1
      · simp [h2]
      · have : (k' == k1) = false := by simp [h2]
        simp [this, ih]

theorem lookup_queryRequest (q : String) (p : Option String)
    (hs : List (String × String)) (ct m k : String)
    (hk1 : k ≠ "Connection") (hk2 : k ≠ "User-Agent") (hk3 : k ≠ "Content-Type") :
    List.lookup k (LiveboxTools.queryRequest q p hs ct m).headers =
      List.lookup k hs := by
  unfold LiveboxTools.queryRequest
  simp only []
  split
  · rw [lookup_dictSet_ne _ _ _ _ hk2, lookup_dictSet_ne _ _ _ _ hk1]
  · rw [lookup_dictSet_ne _ _ _ _ hk3, lookup_dictSet_ne _ _ _ _ hk2,
      lookup_dictSet_ne _ _ _ _ hk1]

theorem lookup_authHeaders_context (st : Session) (hs : List (String × String)) :
    List.lookup "X-Context" (LiveboxTools.authHeaders st hs) = some st.contextID := by
  unfold LiveboxTools.authHeaders
  rw [lookup_dictSet_ne _ _ _ _ (by decide), lookup_dictSet_ne _ _ _ _ (by decide),
    lookup_dictSet_ne _ _ _ _ (by decide), lookup_dictSet_ne _ _ _ _ (by decide),
    lookup_dictSet_self]

theorem lookup_authHeaders_cookie (st : Session) (hs : List (String × String)) :
    List.lookup "Cookie" (LiveboxTools.authHeaders st hs) = some st.cookies := by
  unfold LiveboxTools.authHeaders
  rw [lookup_dictSet_ne _ _ _ _ (by decide), lookup_dictSet_ne _ _ _ _ (by decide),
    lookup_dictSet_ne _ _ _ _ (by decide), lookup_dictSet_ne _ _ _ _ (by decide),
    lookup_dictSet_ne _ _ _ _ (by decide), lookup_dictSet_self]

theorem queryAuth_request_shape (st : Session) (q : String) (p : Option String)
    (hs : List (String × String)) (m : String) (oc : TransportOutcome) :
    ∃ r, (LiveboxTools.queryAuth st q p hs m oc).1.requests = [r] ∧
      r.method = m ∧ r.url = q ∧ r.data = p ∧
      List.lookup "X-Context" r.headers = some st.contextID ∧
      List.lookup "Cookie" r.headers = some st.cookies := by
  refine ⟨LiveboxTools.queryRequest q p (LiveboxTools.authHeaders st hs)
    "application/json" m, ?_, rfl, rfl, rfl, ?_, ?_⟩
  · cases oc <;> rfl
  · rw [lookup_queryRequest _ _ _ _ _ _ (by decide) (by decide) (by decide),
      lookup_authHeaders_context]
  · rw [lookup_queryRequest _ _ _ _ _ _ (by decide) (by decide) (by decide),
      lookup_authHeaders_cookie]

theorem cookie_concat_ne_empty (x code ctx : String) :
    x ++ "; " ++ code ++ "/login=admin; " ++ code ++ "/context=" ++ ctx ≠ "" := by
  intro h
  have hl := congrArg String.length h
  have h2 : ("; " : String).length = 2 := rfl
  have h3 : ("/login=admin; " : String).length = 14 := rfl
  have h4 : ("/context=" : String).length = 9 := rfl
  have h0 : ("" : String).length = 0 := rfl
  simp only [String.length_append] at hl
  rw [h0, h2, h3, h4] at hl
  omega

/-- Claim C2: for every login attempt on a freshly constructed
(never-authenticated) session whose response is absent (transport
failure) or has a status other than 200, the connected flag remains
false and the cookie string and context identifier remain empty. -/
theorem claim_C2_login_failure_fresh (pw : Option String) (gp : String)
    (oc : TransportOutcome)
    (hfail : ∀ resp, oc = TransportOutcome.ok resp → resp.status ≠ 200) :
    (LiveboxTools.login initSession pw gp oc).2 = Except.ok initSession ∧
    initSession.is_connected = false ∧ initSession.cookies = "" ∧
    initSession.contextID = "" := by
  refine ⟨?_, rfl, rfl, rfl⟩
  cases oc with
  | err e => rfl
  | ok resp =>
    have h := hfail resp rfl
    simp [LiveboxTools.login, LiveboxTools.query, LiveboxTools.loginUpdate, h]

/-- Witness for claim C2 at a concrete transport failure. -/
theorem claim_C2_witness :
    (LiveboxTools.login initSession (some "secret") ""
      (TransportOutcome.err HTTPError.httpException)).2 = Except.ok initSession ∧
    initSession.is_connected = false ∧ initSession.cookies = "" ∧
    initSession.contextID = "" :=
  claim_C2_login_failure_fresh (some "secret") ""
    (TransportOutcome.err HTTPError.httpException)
    (fun _ h => nomatch h)

/-- Claim C9: for every session that is already connected, a login
attempt whose response is absent or has a status other than 200 leaves
the entire session state unchanged. -/
theorem claim_C9_login_failure_preserves_session (st : Session)
    (pw : Option String) (gp : String) (oc : TransportOutcome)
    (hconn : st.is_connected = true)
    (hfail : ∀ resp, oc = TransportOutcome.ok resp → resp.status ≠ 200) :
    (LiveboxTools.login st pw gp oc).2 = Except.ok st ∧
    st.is_connected = true := by
  refine ⟨?_, hconn⟩
  cases oc with
  | err e => rfl
  | ok resp =>
    have h := hfail resp rfl
    simp [LiveboxTools.login, LiveboxTools.query, LiveboxTools.loginUpdate, h]

/-- Witness for claim C9: a 401 response against a connected session. -/
theorem claim_C9_witness :
    (LiveboxTools.login connectedSession (some "secret") ""
      (TransportOutcome.ok ⟨401, "", Option.none, Option.none⟩)).2 =
      Except.ok connectedSession ∧
    connectedSession.is_connected = true :=
  claim_C9_login_failure_preserves_session connectedSession (some "secret") "" _
    rfl (fun resp h => by cases h; decide)

/-- Claim C3: for every method wrapped by the requires-authentication
guard, when the session's connected flag is false the call returns the
fixed `AUTH NEEDED` marker and performs no network request (the wrapped
method is never invoked: the result does not depend on it). -/
theorem claim_C3_require_auth_guard (f : Session → Effects × Except PyErr PyVal)
    (st : Session) (hst : st.is_connected = false) :
    LiveboxTools.require_auth f st =
      (⟨[], []⟩, Except.ok (PyVal.str "AUTH NEEDED")) := by
  simp [LiveboxTools.require_auth, hst]

/-- Witness for claim C3: the guard around the `LB_reboot` body on the
fresh session. -/
theorem claim_C3_witness :
    LiveboxTools.require_auth
      (fun s => LiveboxTools.sysbus s "NMC:reboot" (some "") true "POST"
        (TransportOutcome.err HTTPError.httpException)) initSession =
      (⟨[], []⟩, Except.ok (PyVal.str "AUTH NEEDED")) :=
  claim_C3_require_auth_guard _ initSession rfl

/-- Counterexample for claim C7: a connection-refused failure on a
concrete request makes the generic request operation propagate the
exception to the caller instead of returning the null result, so the
clause `no exception of any kind propagates past this layer` is false
of the code. -/
theorem claim_C7_counterexample :
    (LiveboxTools.queryFull "/sysbus/NMC:getWANStatus" (some "") []
      "application/json" "POST"
      (RawOutcome.osError OSErrorKind.connectionRefused)).2 =
      Except.error (PyErr.osError OSErrorKind.connectionRefused) ∧
    (Except.error (PyErr.osError OSErrorKind.connectionRefused) :
      Except PyErr (Option HTTPResponse)) ≠ Except.ok Option.none :=
  ⟨rfl, (fun h => nomatch h)⟩

/-- Claim C7 (amended): each of the five `http.client` exception kinds
the generic request operation enumerates is caught, a distinct message
is logged per kind, and the operation returns a null result; but an
OSError-family transport failure (connection refused, DNS failure,
timeout) is not an `http.client.HTTPException`, matches no except
clause, and propagates past this layer to the caller. -/
theorem claim_C7_query_exception_paths (q : String) (p : Option String)
    (hs : List (String × String)) (ct m : String) (e : HTTPError)
    (eo : OSErrorKind) :
    (LiveboxTools.queryFull q p hs ct m
      (RawOutcome.handled (TransportOutcome.err e))).2 = Except.ok Option.none ∧
    (LiveboxTools.queryFull q p hs ct m
      (RawOutcome.handled (TransportOutcome.err e))).1.log = [errMsg e] ∧
    List.Pairwise (fun a b => a ≠ b)
      [errMsg HTTPError.notConnected, errMsg HTTPError.invalidURL,
       errMsg HTTPError.badStatusLine, errMsg HTTPError.improperConnectionState,
       errMsg HTTPError.httpException] ∧
    (LiveboxTools.queryFull q p hs ct m (RawOutcome.osError eo)).2 =
      Except.error (PyErr.osError eo) :=
  ⟨rfl, rfl, by decide, rfl⟩

/-- Claim C1: a login attempt answered with status 200 and a JSON body
carrying `data.contextID = ctx` connects the session, stores `ctx`,
rebuilds the cookie string from the first segment of `Set-Cookie` and
the derived `login=` / `context=` sub-cookies, and every subsequent
authenticated call sends the header `X-Context` equal to `ctx`. -/
theorem claim_C1_login_success (st : Session) (pw : Option String) (gp : String)
    (resp : HTTPResponse) (d dd : Json) (ctx sc : String)
    (h200 : resp.status = 200)
    (hparse : json_loads resp.body = Except.ok d)
    (hdata : jsonIndex d "data" = Except.ok dd)
    (hctx : jsonIndex dd "contextID" = Except.ok (Json.str ctx))
    (hsc : resp.setCookie = some sc) :
    ∃ st', (LiveboxTools.login st pw gp (TransportOutcome.ok resp)).2 =
        Except.ok st' ∧
      st'.is_connected = true ∧
      st'.contextID = ctx ∧
      st'.cookies = splitHead ';' sc ++ "; " ++ splitHead '/' sc ++
        "/login=admin; " ++ splitHead '/' sc ++ "/context=" ++ ctx ∧
      ∀ q p hs m oc, ∃ r,
        (LiveboxTools.queryAuth st' q p hs m oc).1.requests = [r] ∧
        List.lookup "X-Context" r.headers = some ctx := by
  refine ⟨{ st with
    contextID := ctx,
    cookies_code := splitHead '/' sc,
    cookies := splitHead ';' sc ++ "; " ++ splitHead '/' sc ++
      "/login=admin; " ++ splitHead '/' sc ++ "/context=" ++ ctx,
    is_connected := true }, ?_, rfl, rfl, rfl, ?_⟩
  · simp [LiveboxTools.login, LiveboxTools.query, LiveboxTools.loginUpdate,
      h200, hparse, hdata, hctx, hsc]
  · intro q p hs m oc
    obtain ⟨r, hr, _, _, _, hcx, _⟩ := queryAuth_request_shape _ q p hs m oc
    exact ⟨r, hr, hcx⟩

/-- Witness for claim C1 at the concrete `ctxResponse`. -/
theorem claim_C1_witness :
    ∃ st', (LiveboxTools.login initSession (some "secret") ""
        (TransportOutcome.ok ctxResponse)).2 = Except.ok st' ∧
      st'.is_connected = true ∧
      st'.contextID = "ctx123" ∧
      st'.cookies = splitHead ';' "65190fee/sessid=abc; path=/" ++ "; " ++
        splitHead '/' "65190fee/sessid=abc; path=/" ++ "/login=admin; " ++
        splitHead '/' "65190fee/sessid=abc; path=/" ++ "/context=" ++ "ctx123" ∧
      ∀ q p hs m oc, ∃ r,
        (LiveboxTools.queryAuth st' q p hs m oc).1.requests = [r] ∧
        List.lookup "X-Context" r.headers = some "ctx123" :=
  claim_C1_login_success initSession (some "secret") "" ctxResponse
    (Json.obj [("data", Json.obj [("contextID", Json.str "ctx123")])])
    (Json.obj [("contextID", Json.str "ctx123")]) "ctx123"
    "65190fee/sessid=abc; path=/" rfl rfl rfl rfl rfl

/-- Claim C4: an authenticated call whose response carries a
`Content-Type` whose media type is not exactly `application/json`
returns the empty string whatever the body holds; the body is decoded
and returned only when the media type is exactly `application/json`. -/
theorem claim_C4_queryAuth_content_type (st : Session) (q : String)
    (p : Option String) (hs : List (String × String)) (m : String)
    (resp : HTTPResponse) (ct : String)
    (hct : resp.contentType = some ct) :
    (splitHead ';' ct ≠ "application/json" →
      (LiveboxTools.queryAuth st q p hs m (TransportOutcome.ok resp)).2 =
        Except.ok (PyVal.str "")) ∧
    (∀ j, (LiveboxTools.queryAuth st q p hs m (TransportOutcome.ok resp)).2 =
        Except.ok (PyVal.json j) →
      splitHead ';' ct = "application/json" ∧
      json_loads resp.body = Except.ok j) := by
  have hq : (LiveboxTools.queryAuth st q p hs m (TransportOutcome.ok resp)).2 =
      LiveboxTools.authDecode (some resp) := rfl
  rw [hq]
  constructor
  · intro hne
    simp only [LiveboxTools.authDecode]
    by_cases hb : resp.body = ""
    · rw [if_pos hb]
    · rw [if_neg hb, hct]
      simp [hne]
  · intro j hj
    simp only [LiveboxTools.authDecode] at hj
    by_cases hb : resp.body = ""
    · rw [if_pos hb] at hj
      simp at hj
    · rw [if_neg hb, hct] at hj
      by_cases hsp : splitHead ';' ct = "application/json"
      · refine ⟨hsp, ?_⟩
        simp only [hsp, if_true] at hj
        cases hjl : json_loads resp.body with
        | error e => rw [hjl] at hj; simp at hj
        | ok j2 => rw [hjl] at hj; simp at hj; rw [hj]
      · simp only [hsp, if_false] at hj
        simp at hj

/-- Witness for claim C4: an HTML response against a connected session. -/
theorem claim_C4_witness :
    (LiveboxTools.queryAuth connectedSession "/sysbus/NMC:getWANStatus"
      (some "") [] "POST" (TransportOutcome.ok htmlResponse)).2 =
      Except.ok (PyVal.str "") :=
  (claim_C4_queryAuth_content_type connectedSession "/sysbus/NMC:getWANStatus"
    (some "") [] "POST" htmlResponse "text/html; charset=utf8" rfl).1
    (by decide)

/-- Counterexample for claim C5: `logout` on a connected session sets
the connected flag to false but does not clear the cookie string or
the context identifier, contradicting the claimed clearing of session
state. -/
theorem claim_C5_counterexample :
    (LiveboxTools.logout connectedSession
      (TransportOutcome.err HTTPError.httpException)).2 =
      Except.ok {
        cookies := "sess=abc",
        cookies_code := "",
        contextID := "ctx1",
        is_connected := false } ∧
    ("sess=abc" : String) ≠ "" ∧ ("ctx1" : String) ≠ "" :=
  ⟨rfl, by decide, by decide⟩

/-- Claim C5 (amended): `logout()` is a no-op when not connected; when
connected it issues one authenticated POST to `/logout` and, whenever
that call returns without raising, sets the connected flag to false
while keeping the cookie string and the context identifier unchanged. -/
theorem claim_C5_logout_behaviour (st : Session) (oc : TransportOutcome) :
    (st.is_connected = false → LiveboxTools.logout st oc =
      (⟨[], []⟩, Except.ok st)) ∧
    (st.is_connected = true →
      (∃ r, (LiveboxTools.logout st oc).1.requests = [r] ∧ r.method = "POST" ∧
        r.url = "/logout" ∧
        List.lookup "Cookie" r.headers = some st.cookies ∧
        List.lookup "X-Context" r.headers = some st.contextID) ∧
      ∀ st', (LiveboxTools.logout st oc).2 = Except.ok st' →
        st' = { st with is_connected := false }) := by
  constructor
  · intro h
    simp [LiveboxTools.logout, h]
  · intro h
    constructor
    · obtain ⟨r, hr, hm, hu, _, hcx, hck⟩ :=
        queryAuth_request_shape st "/logout" (some "") [] "POST" oc
      refine ⟨r, ?_, hm, hu, hck, hcx⟩
      simp only [LiveboxTools.logout, h, if_true]
      split <;> exact hr
    · intro st' hst'
      simp only [LiveboxTools.logout, h, if_true] at hst'
      split at hst' <;> simp_all

/-- Witness for claim C5 (amended) on a connected session with a
transport failure. -/
theorem claim_C5_witness :
    (∃ r, (LiveboxTools.logout connectedSession
        (TransportOutcome.err HTTPError.httpException)).1.requests = [r] ∧
      r.method = "POST" ∧ r.url = "/logout" ∧
      List.lookup "Cookie" r.headers = some connectedSession.cookies ∧
      List.lookup "X-Context" r.headers = some connectedSession.contextID) ∧
    ∀ st', (LiveboxTools.logout connectedSession
        (TransportOutcome.err HTTPError.httpException)).2 = Except.ok st' →
      st' = { connectedSession with is_connected := false } :=
  (claim_C5_logout_behaviour connectedSession
    (TransportOutcome.err HTTPError.httpException)).2 rfl

theorem loginUpdate_ok_cases (st : Session) (ro : Option HTTPResponse)
    (st' : Session) (h : LiveboxTools.loginUpdate st ro = Except.ok st') :
    st' = st ∨
    ∃ resp d dd ctx sc, ro = some resp ∧ resp.status = 200 ∧
      json_loads resp.body = Except.ok d ∧
      jsonIndex d "data" = Except.ok dd ∧
      jsonIndex dd "contextID" = Except.ok (Json.str ctx) ∧
      resp.setCookie = some sc ∧
      st' = { st with
        contextID := ctx,
        cookies_code := splitHead '/' sc,
        cookies := splitHead ';' sc ++ "; " ++ splitHead '/' sc ++
          "/login=admin; " ++ splitHead '/' sc ++ "/context=" ++ ctx,
        is_connected := true } := by
  cases ro with
  | none =>
    left
    have h2 : Except.ok (ε := PyErr) st = Except.ok st' := h
    injection h2 with h3
    exact h3.symm
  | some resp =>
    simp only [LiveboxTools.loginUpdate] at h
    by_cases h200 : resp.status = 200
    · rw [if_pos h200] at h
      cases hjl : json_loads resp.body with
      | error e => rw [hjl] at h; simp at h
      | ok d =>
        rw [hjl] at h
        simp only [] at h
        cases hjd : jsonIndex d "data" with
        | error e => rw [hjd] at h; simp at h
        | ok dd =>
          rw [hjd] at h
          simp only [] at h
          cases hjc : jsonIndex dd "contextID" with
          | error e => rw [hjc] at h; simp at h
          | ok ctxJ =>
            rw [hjc] at h
            simp only [] at h
            cases hsc : resp.setCookie with
            | none => rw [hsc] at h; simp at h
            | some sc =>
              rw [hsc] at h
              simp only [] at h
              cases ctxJ with
              | str ctx =>
                right
                refine ⟨resp, d, dd, ctx, sc, rfl, h200, hjl, hjd, hjc, hsc, ?_⟩
                simp only [] at h
                injection h with h2
                exact h2.symm
              | null => simp at h
              | bool b => simp at h
              | num n => simp at h
              | arr es => simp at h
              | obj fs => simp at h
    · rw [if_neg h200] at h
      left
      injection h with h2
      exact h2.symm

/-- Counterexample for claim C6: a 200 login response whose
`data.contextID` is the empty string connects the session while
leaving the context identifier empty, so the stated invariant is not
preserved by login under arbitrary server responses. -/
theorem claim_C6_counterexample :
    (LiveboxTools.login initSession (some "pw") ""
      (TransportOutcome.ok emptyCtxResponse)).2 =
      Except.ok {
        cookies := "code1/sess=abc; code1/login=admin; code1/context=",
        cookies_code := "code1",
        contextID := "",
        is_connected := true } ∧
    ¬ SessionInv {
        cookies := "code1/sess=abc; code1/login=admin; code1/context=",
        cookies_code := "code1",
        contextID := "",
        is_connected := true } :=
  ⟨rfl, fun h => (h rfl).2 rfl⟩

/-- Claim C6 (amended): the invariant `connected → cookie and context
non-empty` holds initially and is preserved by logout and by any login
whose successful responses carry a non-empty `data.contextID`; a 200
response with an empty `contextID` is the sole violation.  The RPC
operations (`queryAuth`, `queryUnauth`, `sysbus` and the `LB_*`
wrappers) never assign a session field in the source, so they preserve
every state property by construction. -/
theorem claim_C6_invariant_preservation :
    SessionInv initSession ∧
    (∀ st pw gp oc st',
      SessionInv st →
      (∀ resp d dd, oc = TransportOutcome.ok resp →
        json_loads resp.body = Except.ok d →
        jsonIndex d "data" = Except.ok dd →
        jsonIndex dd "contextID" ≠ Except.ok (Json.str "")) →
      (LiveboxTools.login st pw gp oc).2 = Except.ok st' → SessionInv st') ∧
    (∀ st oc st', SessionInv st →
      (LiveboxTools.logout st oc).2 = Except.ok st' → SessionInv st') := by
  refine ⟨(fun h => nomatch h), ?_, ?_⟩
  · intro st pw gp oc st' hinv hne hsucc
    cases oc with
    | err e =>
      have h2 : LiveboxTools.loginUpdate st Option.none = Except.ok st' := hsucc
      rcases loginUpdate_ok_cases st Option.none st' h2 with h | h
      · rw [h]; exact hinv
      · obtain ⟨resp, _, _, _, _, hro, _⟩ := h
        exact absurd hro (by simp)
    | ok resp =>
      have h2 : LiveboxTools.loginUpdate st (some resp) = Except.ok st' := hsucc
      rcases loginUpdate_ok_cases st (some resp) st' h2 with h | h
      · rw [h]; exact hinv
      · obtain ⟨resp2, d, dd, ctx, sc, hro, h200, hjl, hjd, hjc, hsc, hst⟩ := h
        injection hro with hre
        subst hre
        have hctxne : ctx ≠ "" := by
          intro hc
          subst hc
          exact hne resp d dd rfl hjl hjd hjc
        rw [hst]
        intro _
        exact ⟨cookie_concat_ne_empty _ _ _, hctxne⟩
  · intro st oc st' hinv hsucc
    by_cases hc : st.is_connected = true
    · simp only [LiveboxTools.logout, hc, if_true] at hsucc
      split at hsucc
      · injection hsucc with h2
        rw [← h2]
        intro hcon
        exact nomatch hcon
      · exact absurd hsucc (by simp)
    · rw [Bool.not_eq_true] at hc
      simp only [LiveboxTools.logout, hc] at hsucc
      injection hsucc with h2
      rw [← h2]
      exact hinv

/-- Witness for claim C6 (amended): preservation across the concrete
successful login of `ctxResponse`. -/
theorem claim_C6_witness :
    SessionInv {
      cookies := "65190fee/sessid=abc; 65190fee/login=admin; 65190fee/context=ctx123",
      cookies_code := "65190fee",
      contextID := "ctx123",
      is_connected := true } :=
  claim_C6_invariant_preservation.2.1 initSession (some "secret") ""
    (TransportOutcome.ok ctxResponse) _ (fun h => nomatch h)
    (fun resp d dd hr hd hdd => by
      cases hr
      have hd2 : Except.ok (Json.obj
          [("data", Json.obj [("contextID", Json.str "ctx123")])]) =
          Except.ok d := hd
      injection hd2 with hd3
      subst hd3
      have hdd2 : Except.ok (Json.obj [("contextID", Json.str "ctx123")]) =
          Except.ok dd := hdd
      injection hdd2 with hdd3
      subst hdd3
      intro hcon
      have h5 : Except.ok (Json.str "ctx123") = Except.ok (Json.str "") := hcon
      injection h5 with h6
      injection h6 with h7
      exact absurd h7 (by decide))
    rfl

/-- Counterexample for claim C8: the request and dispatch functions of
the two duplicated files are equal as functions (the two files are
byte-identical over this logic), so no input with a non-POST method
distinguishes them. -/
theorem claim_C8_counterexample :
    LiveboxTools.query = LiveboxLib.query ∧
    LiveboxTools.sysbus = LiveboxLib.sysbus :=
  ⟨rfl, rfl⟩

/-- Claim C8 (amended): the two duplicated files implement the same
header/method-handling logic: their request and dispatch functions are
extensionally equal on every input, and both dispatch with the
caller-configurable HTTP method (the issued request carries exactly the
method argument, POST or not). -/
theorem claim_C8_duplicates_agree (q : String) (p : Option String)
    (hs : List (String × String)) (ct m : String) (oc : TransportOutcome)
    (st : Session) (quest : String) (param : Option String) (auth : Bool) :
    LiveboxTools.query q p hs ct m oc = LiveboxLib.query q p hs ct m oc ∧
    LiveboxTools.sysbus st quest param auth m oc =
      LiveboxLib.sysbus st quest param auth m oc ∧
    ∃ r, (LiveboxTools.query q p hs ct m oc).1.requests = [r] ∧ r.method = m := by
  refine ⟨rfl, rfl, ⟨LiveboxTools.queryRequest q p hs ct m, ?_, rfl⟩⟩
  cases oc <;> rfl

/-- Claim C10: for a connected session, `LB_Wifiset` returns the fixed
`"ERROR"` string and performs no network request when its argument is
not a boolean; for a boolean argument it issues the `NMC/Wifi:set`
sysbus call whose body sets `Enable` and `Status` to that boolean. -/
theorem claim_C10_wifiset (st : Session) (enable : PyArg)
    (oc : TransportOutcome) (hconn : st.is_connected = true) :
    (isBoolArg enable = false →
      LiveboxTools.LB_Wifiset st enable oc =
        (⟨[], ["ACTION"]⟩, Except.ok (PyVal.str "ERROR"))) ∧
    (∀ b, enable = PyArg.bool b →
      ∃ r, (LiveboxTools.LB_Wifiset st enable oc).1.requests = [r] ∧
        r.url = "/sysbus/NMC/Wifi:set" ∧
        r.data = some (LiveboxTools.wifiBody b) ∧
        r.method = "POST" ∧
        List.lookup "X-Context" r.headers = some st.contextID) := by
  constructor
  · intro hb
    cases enable with
    | bool b => simp [isBoolArg] at hb
    | int n =>
      simp [LiveboxTools.LB_Wifiset, LiveboxTools.action,
        LiveboxTools.require_auth, hconn]
    | str s =>
      simp [LiveboxTools.LB_Wifiset, LiveboxTools.action,
        LiveboxTools.require_auth, hconn]
    | none =>
      simp [LiveboxTools.LB_Wifiset, LiveboxTools.action,
        LiveboxTools.require_auth, hconn]
  · intro b hb
    subst hb
    obtain ⟨r, hr, hm, hu, hd, hcx, _⟩ := queryAuth_request_shape st
      ("/sysbus/" ++ "NMC/Wifi:set") (some (LiveboxTools.wifiBody b)) []
      "POST" oc
    refine ⟨r, ?_, ?_, hd, hm, hcx⟩
    · simp only [LiveboxTools.LB_Wifiset, LiveboxTools.action,
        LiveboxTools.require_auth, hconn, if_true, LiveboxTools.sysbus]
      exact hr
    · rw [hu]; decide

/-- Witness for claim C10: a connected session with a string argument. -/
theorem claim_C10_witness :
    LiveboxTools.LB_Wifiset connectedSession (PyArg.str "on")
      (TransportOutcome.err HTTPError.httpException) =
      (⟨[], ["ACTION"]⟩, Except.ok (PyVal.str "ERROR")) :=
  (claim_C10_wifiset connectedSession (PyArg.str "on")
    (TransportOutcome.err HTTPError.httpException) rfl).1 rfl
